import Mathlib

/-!
# Space Invaders: shallow embedding of the state-transition core

This file embeds the pure state-transition core of `src/spaceinvaders.ts`
(the FRP Space Invaders implementation) into Lean 4 and proves/refutes the
frozen specification claims about it.

Modelling conventions:
* JS numbers used for geometry (positions, velocities, accelerations, time)
  are modelled as exact rationals `ℚ`; the decimal literals `0.3` and `0.0001`
  of the source become `3/10` and `1/10000`.
* `Vec.rotate(180)` is modelled as exact negation of both components
  (the 2D rotation matrix at 180 degrees); the source computes it with
  `Math.cos`/`Math.sin` of `π`, whose rounding noise (≈1e-16) is ignored.
* `score`, `hiScore` and `objCount` are modelled as `ℕ` (they are integer
  counters in the source: start at 0 or a stored non-negative high score and
  only grow by non-negative integer amounts, or are reset to 0).
* The JS `%` operator (sign of the dividend, truncating division) used by the
  RNG is modelled by `jsMod` below; `Math.floor` is `Int.floor`.
* CAVEAT on the RNG: the source computes `a * state + c` on IEEE-754 binary64
  doubles, whose product rounds once it exceeds 2^53 (which happens for
  integer states above roughly 8.2e6, e.g. every second LCG state); `RNG.int`
  below multiplies exactly in `ℚ` and therefore does NOT reproduce the
  numeric values of the source's generator in that regime.  No claim about
  the numeric range of `RNG.int`/`RNG.float` is settled against this model;
  the definitions are kept only because `renewState` threads `rng.next` and
  `alienShoot` consumes `rng.float`, and no settled claim depends on which
  particular value they produce.
* JS `Array.prototype.concat` flattens array arguments but appends non-array
  arguments as single elements.  `renewState` passes the `AliensInfo` record
  itself (not `s.aliens.bodies`) to `concat`, so the `exit` collection is
  heterogeneous; it is modelled by the sum type `ExitEntry` below.
* Out-of-range element access (JS `undefined` followed by a property access,
  which throws) is modelled with `Option`: `alienShoot` returns `none` when
  the selected index is outside the alien list, and the reducer is therefore
  `State → Ev → Option State`.
-/

set_option maxRecDepth 8000

namespace SpaceInvaders

/-- Two-dimensional vector (`class Vec`), over exact rationals. -/
structure Vec where
  x : ℚ
  y : ℚ
deriving DecidableEq, Repr

namespace Vec

/-- Vector addition (`Vec.add`). -/
def add (a b : Vec) : Vec := ⟨a.x + b.x, a.y + b.y⟩

/-- Vector subtraction (`Vec.sub`). -/
def sub (a b : Vec) : Vec := ⟨a.x - b.x, a.y - b.y⟩

/-- Scalar multiplication (`Vec.scale`). -/
def scale (a : Vec) (s : ℚ) : Vec := ⟨a.x * s, a.y * s⟩

/-- Zero vector (`Vec.Zero`). -/
def zero : Vec := ⟨0, 0⟩

/-- Models `v.rotate(180)`: the rotation matrix at 180 degrees negates both
components (`cos 180° = -1`, `sin 180° = 0`). -/
def rotate180 (a : Vec) : Vec := ⟨-a.x, -a.y⟩

end Vec

/-- Width/height record used by `dims` fields. -/
structure Dims where
  width : ℚ
  height : ℚ
deriving DecidableEq, Repr

/-- A physical body (`type Body`). -/
structure Body where
  id : String
  viewType : String
  createTime : ℚ
  dims : Dims
  pos : Vec
  vel : Vec
  acc : Vec
deriving DecidableEq, Repr

/-- Truncation toward zero, as JS number-to-integer truncation in `%`. -/
def jsTrunc (q : ℚ) : ℤ := if q < 0 then -Int.floor (-q) else Int.floor q

/-- JS `%` operator on numbers: remainder with the sign of the dividend,
`x % m = x - m * trunc (x / m)`. -/
def jsMod (x m : ℚ) : ℚ := x - m * (jsTrunc (x / m) : ℚ)

/-- Linear-congruential pseudo-random generator (`class RNG`). -/
structure RNG where
  state : ℚ
deriving DecidableEq, Repr

namespace RNG

/-- LCG modulus `m = 0x80000000`. -/
def modulus : ℚ := 2147483648

/-- LCG multiplier `a`. -/
def multiplier : ℚ := 1103515245

/-- LCG increment `c`. -/
def increment : ℚ := 12345

/-- Source `RNG.int(): (a * state + c) % m`.  Exact-rational idealisation:
the source evaluates `a * state + c` on binary64 doubles, which rounds when
the product exceeds 2^53 (true for most LCG states); this definition
multiplies exactly and so diverges from the source's values there — for
example at state 230538014 the source yields 0 while this yields
2147483647.  Claims about the numeric range of the generator are therefore
not settled against this definition (see the module docstring). -/
def int (r : RNG) : ℚ := jsMod (multiplier * r.state + increment) modulus

/-- Source `RNG.float(): int() / (m - 1)`.  Exact-rational idealisation of a
rounded binary64 division; subject to the same caveat as `RNG.int`. -/
def float (r : RNG) : ℚ := r.int / (modulus - 1)

/-- Source `RNG.next(): new RNG(int())`. -/
def next (r : RNG) : RNG := ⟨r.int⟩

end RNG

/-- The `movementPos` sub-record of `AliensInfo`. -/
structure MovementPos where
  start : Vec
  current : Body
deriving DecidableEq, Repr

/-- Source `interface AliensInfo`. -/
structure AliensInfo where
  bodies : List Body
  accMagnitude : ℚ
  movementPos : MovementPos
deriving DecidableEq, Repr

/-- One element of the heterogeneous `exit` array: `renewState` pushes the
whole `AliensInfo` record as a single element (JS `concat` does not flatten
non-array arguments), while every other site pushes `Body` values. -/
inductive ExitEntry where
  | body (b : Body)
  | aliens (a : AliensInfo)
deriving DecidableEq, Repr

/-- Source `type State`. -/
structure State where
  time : ℚ
  score : ℕ
  hiScore : ℕ
  gameOver : Bool
  ship : Body
  bullets : List Body
  exit : List ExitEntry
  shields : List Body
  holes : List Body
  aliens : AliensInfo
  ufo : List Body
  objCount : ℕ
  rng : RNG
deriving DecidableEq, Repr

/-- The six game events (`Tick`, `Move`, `Shoot`, `AlienShoot`, `Restart`,
`UfoSpawn`). -/
inductive Ev where
  | tick (elapsed : ℚ)
  | move (direction : ℚ)
  | shoot
  | alienShoot
  | restart
  | ufoSpawn
deriving DecidableEq, Repr

/-! ## Game constants (`CONST`) -/

def CANVAS_SIZE : ℚ := 600
def START_TIME : ℚ := 0
def SHIP_DIMS : Dims := ⟨50, 20⟩
def BULLET_PLAYER_VEL : ℚ := 5
def BULLET_ALIEN_VEL : ℚ := 5
def BULLET_DIMS : Dims := ⟨6, 24⟩
def BULLET_HOLE_DIMS : Dims := ⟨25, 25⟩
def SHIELD_INITIAL_POS : Vec := ⟨10, 425⟩
def SHIELD_DISTANCE_APART : ℚ := 125
def SHIELD_DIMS : Dims := ⟨80, 40⟩
def ALIEN_SPACING : ℚ := 10
def ALIEN_SCORING : ℕ := 10
def ALIEN_DIMS : Dims := ⟨35, 35⟩
def ALIEN_INITIAL_POS : Vec := ⟨50, 50⟩
def ALIEN_INITIAL_SPEED : ℚ := 3 / 10
def ALIEN_INITIAL_ACC : ℚ := 1 / 10000
def ALIEN_X_BOUNDS_LEFT : ℚ := 50
def ALIEN_X_BOUNDS_RIGHT : ℚ := 500
def ALIEN_MOVE_DIST_Y : ℚ := 35
def ALIEN_ROWS : ℕ := 3
def ALIEN_COLS : ℕ := 8
def UFO_INITIAL_POS : Vec := ⟨-50, 50⟩
def UFO_INITIAL_VEL : Vec := ⟨2, 0⟩
def UFO_DIMS : Dims := ⟨100, 60⟩
def UFO_POINTS : ℕ := 50
def DIFFICULTY_ALIEN_ACC_SCALE : ℚ := 2

/-! ## Object generators -/

/-- Source `createBody`: the id is the view type followed by the optional numeric
discriminator. -/
def createBody (viewType : String) (oId : Option ℕ) (time : ℚ) (dims : Dims)
    (pos vel acc : Vec) : Body :=
  { id := viewType ++ (match oId with | some n => toString n | none => "")
    viewType := viewType
    createTime := time
    dims := dims
    pos := pos
    vel := vel
    acc := acc }

/-- Source `createAlien`. -/
def createAlien (oId : Option ℕ) (pos : Vec) (accMag : ℚ) : Body :=
  createBody "alien" oId START_TIME ALIEN_DIMS pos
    ⟨ALIEN_INITIAL_SPEED, 0⟩ ⟨accMag, 0⟩

/-- Source `createShip`. -/
def createShip : Body :=
  createBody "ship" none START_TIME SHIP_DIMS
    ⟨CANVAS_SIZE / 2 - SHIP_DIMS.width / 2,
     CANVAS_SIZE - 50 - SHIP_DIMS.height / 2⟩
    Vec.zero Vec.zero

/-- Source `createShields`. -/
def createShields : List Body :=
  (List.range 5).map fun i =>
    createBody "shield" (some i) START_TIME SHIELD_DIMS
      (SHIELD_INITIAL_POS.add ⟨(i : ℚ) * SHIELD_DISTANCE_APART, 0⟩)
      Vec.zero Vec.zero

/-- Source `createAliens`: builds the ROWS×COLS grid of alien bodies sharing the
supplied acceleration magnitude, together with the formation anchor.
Note: the source constructs the anchor (`movementPos.current`) with the
constant `CONST.ALIEN.INITIAL.ACC`, not with the `alienAcc` parameter. -/
def createAliens (alienAcc : ℚ) : AliensInfo :=
  { bodies :=
      (List.range (ALIEN_ROWS * ALIEN_COLS)).map fun i =>
        createAlien (some i)
          (ALIEN_INITIAL_POS.add
            ⟨((i % ALIEN_COLS : ℕ) : ℚ) * (ALIEN_DIMS.width + ALIEN_SPACING),
             ((i / ALIEN_COLS : ℕ) : ℚ) * (ALIEN_DIMS.height + ALIEN_SPACING)⟩)
          alienAcc
    accMagnitude := alienAcc
    movementPos :=
      { start := ⟨ALIEN_INITIAL_POS.x, 0⟩
        current := createAlien none ⟨ALIEN_INITIAL_POS.x, 0⟩ ALIEN_INITIAL_ACC } }

/-- Source `initialState`, parameterised by the stored previous high score and by the
impure `Math.random()` seed of the shooter RNG. -/
def initialState (prevHiScore : ℕ) (shooterSeed : ℚ) : State :=
  { time := START_TIME
    score := 0
    hiScore := prevHiScore
    gameOver := false
    ship := createShip
    bullets := []
    exit := []
    shields := createShields
    holes := []
    aliens := createAliens ALIEN_INITIAL_ACC
    ufo := []
    objCount := ALIEN_ROWS * ALIEN_COLS
    rng := ⟨shooterSeed⟩ }

/-- Source `renewState`: reset for restart (`resetState = true`) or level advance
(`resetState = false`).  The `exit` field is
`[].concat(s.bullets, s.holes, s.ufo, s.aliens)`: the bullet, hole and UFO
arrays are flattened, but `s.aliens` (an `AliensInfo` record, not an array)
is appended as a single element. -/
def renewState (s : State) (resetState : Bool) : State :=
  let alienAcc : ℚ :=
    if resetState then ALIEN_INITIAL_ACC
    else DIFFICULTY_ALIEN_ACC_SCALE * s.aliens.accMagnitude
  { s with
    ship := createShip
    time := START_TIME
    score := if resetState then 0 else s.score
    gameOver := false
    bullets := []
    exit := (s.bullets ++ s.holes ++ s.ufo).map ExitEntry.body
              ++ [ExitEntry.aliens s.aliens]
    holes := []
    aliens := createAliens alienAcc
    ufo := []
    objCount := s.objCount + ALIEN_ROWS * ALIEN_COLS
    rng := s.rng.next }

/-! ## Physics helpers -/

/-- Source `sameId`. -/
def sameId (a b : Body) : Bool := a.id == b.id

/-- Source `isViewType`. -/
def isViewType (v : String) (o : Body) : Bool := v == o.viewType

/-- Source `inBounds`. -/
def inBounds (o : Body) : Bool :=
  let bound : ℚ → Bool := fun v => decide (0 < v) && decide (v < CANVAS_SIZE)
  bound o.pos.x && bound (o.pos.x + o.dims.width) && bound o.pos.y
    && bound (o.pos.y + o.dims.height)

/-- Source `moveBody`: Euler step `pos += vel; vel += acc`. -/
def moveBody (o : Body) : Body :=
  { o with pos := o.pos.add o.vel, vel := o.vel.add o.acc }

/-- Source `stopBody`: revert position by the velocity and zero the velocity. -/
def stopBody (o : Body) : Body :=
  { o with pos := o.pos.sub o.vel, vel := Vec.zero }

/-- Source helper `elem`: membership in a list under an equivalence test. -/
def elemBy {α : Type} (eq : α → α → Bool) (a : List α) (e : α) : Bool :=
  a.any (eq e)

/-- Source helper `except`: keep elements of `a` that are not in `b` under `eq`. -/
def exceptBy {α : Type} (eq : α → α → Bool) (a b : List α) : List α :=
  a.filter fun x => !(elemBy eq b x)

/-- Source `moveAliens`: rigid sweep of the formation, with the drop-and-reverse step
when the anchor reaches a horizontal bound. -/
def moveAliens (a : AliensInfo) : AliensInfo :=
  let shiftAlienDown : Body → Body := fun b =>
    { b with
      pos := b.pos.add ⟨0, ALIEN_MOVE_DIST_Y⟩
      vel := b.vel.rotate180
      acc := b.acc.rotate180 }
  let aliensTopRightPosX : ℚ :=
    ALIEN_X_BOUNDS_RIGHT
      - ((ALIEN_COLS : ℚ) * ALIEN_DIMS.width + ((ALIEN_COLS : ℚ) - 1) * ALIEN_SPACING)
  let leftBound : Bool :=
    decide (a.movementPos.current.pos.x ≤ a.movementPos.start.x - aliensTopRightPosX)
  let rightBound : Bool :=
    decide (a.movementPos.current.pos.x ≥ a.movementPos.start.x + aliensTopRightPosX)
  let outOfBounds : Bool := leftBound || rightBound
  let shiftLeft : ℚ :=
    if rightBound then
      (a.movementPos.current.pos.x + aliensTopRightPosX * 2) - ALIEN_X_BOUNDS_RIGHT
    else 0
  let shiftRight : ℚ :=
    if leftBound then a.movementPos.current.pos.x - ALIEN_X_BOUNDS_LEFT else 0
  let shiftAlienX : Body → Body := fun b =>
    { b with pos := b.pos.add ⟨shiftLeft + shiftRight, 0⟩ }
  { a with
    bodies :=
      if outOfBounds then (a.bodies.map shiftAlienX).map shiftAlienDown
      else a.bodies.map moveBody
    movementPos :=
      if outOfBounds then
        { start := a.movementPos.current.pos
          current := shiftAlienDown (shiftAlienX a.movementPos.current) }
      else
        { a.movementPos with current := moveBody a.movementPos.current } }

/-- Source `bodiesCollided`: closed-interval axis-aligned bounding-box overlap. -/
def bodiesCollided (a b : Body) : Bool :=
  decide (a.pos.x + a.dims.width ≥ b.pos.x)
    && decide (a.pos.x ≤ b.pos.x + b.dims.width)
    && decide (a.pos.y + a.dims.height ≥ b.pos.y)
    && decide (a.pos.y ≤ b.pos.y + b.dims.height)

/-- Source `collidedBodies bodiesCollided`: all colliding pairs of two body lists. -/
def checkCollision (aArr bArr : List Body) : List (Body × Body) :=
  (aArr.flatMap fun a => bArr.map fun b => (a, b)).filter fun p =>
    bodiesCollided p.1 p.2

/-- Source `handleCollisions`. -/
def handleCollisions (s : State) : State :=
  let cut : List Body → List Body → List Body := exceptBy sameId
  let shipCollided : Bool :=
    (s.bullets.filter fun b => bodiesCollided s.ship b).length > 0
  let collidedBulletsFromShields : List Body :=
    (checkCollision s.bullets s.shields).map Prod.fst
  let collidedBulletsFromHoles : List Body :=
    (checkCollision collidedBulletsFromShields s.holes).map Prod.fst
  let expiredBulletsFromShields : List Body :=
    cut collidedBulletsFromShields collidedBulletsFromHoles
  let playerBullets : List Body := s.bullets.filter (isViewType "bulletPlayer")
  let collidedPlayerBulletsAndAliens : List (Body × Body) :=
    checkCollision playerBullets s.aliens.bodies
  let expiredBulletsFromAliens : List Body :=
    collidedPlayerBulletsAndAliens.map Prod.fst
  let expiredAliens : List Body := collidedPlayerBulletsAndAliens.map Prod.snd
  let remainingAliens : List Body :=
    s.aliens.bodies.filter fun b => !(elemBy sameId expiredAliens b)
  let expiredBulletsWithBullets : List Body :=
    ((checkCollision s.bullets s.bullets).filter fun p =>
      !(sameId p.1 p.2)).map Prod.fst
  let collidedPlayerBulletsAndUfo : List (Body × Body) :=
    checkCollision playerBullets s.ufo
  let expiredBulletsFromUfo : List Body := collidedPlayerBulletsAndUfo.map Prod.fst
  let expiredUfos : List Body := collidedPlayerBulletsAndUfo.map Prod.snd
  let remainingUfos : List Body :=
    s.ufo.filter fun u => !(elemBy sameId expiredUfos u)
  let holesBullets : List Body :=
    expiredBulletsFromShields.enum.map fun p =>
      createBody "hole" (some (s.objCount + p.1)) s.time BULLET_HOLE_DIMS
        (p.2.pos.add
          ⟨p.2.dims.width / 2 - BULLET_HOLE_DIMS.width / 2,
           if p.2.vel.y > 0
             then BULLET_HOLE_DIMS.height - BULLET_HOLE_DIMS.height / 2
             else 0⟩)
        Vec.zero Vec.zero
  let expiredBullets : List Body :=
    expiredBulletsFromShields ++ expiredBulletsFromAliens
      ++ expiredBulletsWithBullets ++ expiredBulletsFromUfo
  let newScore : ℕ :=
    s.score + ALIEN_SCORING * collidedPlayerBulletsAndAliens.length
      + UFO_POINTS * expiredUfos.length
  { s with
    score := newScore
    hiScore := if newScore > s.hiScore then newScore else s.hiScore
    bullets :=
      cut (cut (cut s.bullets expiredBulletsFromShields) expiredBulletsFromAliens)
        expiredBulletsWithBullets
    exit := s.exit ++ (expiredAliens ++ expiredBullets ++ expiredUfos).map ExitEntry.body
    holes := s.holes ++ holesBullets
    aliens := { s.aliens with bodies := remainingAliens }
    ufo := remainingUfos
    objCount := s.objCount + holesBullets.length
    gameOver := s.gameOver || shipCollided }

/-- Source `tick`. -/
def tick (s : State) (elapsed : ℚ) : State :=
  let activeBullets : List Body := s.bullets.filter inBounds
  let expiredBullets : List Body := s.bullets.filter fun b => !(inBounds b)
  let alienInvaded : Bool :=
    (s.aliens.bodies.filter fun b => !(inBounds b)).length > 0
  let exitLeft : Body → Bool := fun o =>
    decide (o.pos.x < CANVAS_SIZE + o.dims.width)
  let activeUfos : List Body := s.ufo.filter exitLeft
  let expiredUfos : List Body := exceptBy sameId s.ufo activeUfos
  handleCollisions
    { s with
      ship := if inBounds s.ship then moveBody s.ship else stopBody s.ship
      bullets := activeBullets.map moveBody
      exit := s.exit ++ (expiredBullets ++ expiredUfos).map ExitEntry.body
      aliens := moveAliens s.aliens
      ufo := activeUfos.map moveBody
      time := elapsed
      gameOver := alienInvaded }

/-- Source `alienShoot`: select `Math.floor(length * rng.float())` as an index into
the live alien list.  Indexing outside the list yields JS `undefined` and the
subsequent property access throws; this is modelled by `none`. -/
def alienShoot (s : State) : Option State :=
  let attackerIndex : ℤ :=
    Int.floor ((s.aliens.bodies.length : ℚ) * s.rng.float)
  let attacker : Option Body :=
    if 0 ≤ attackerIndex then s.aliens.bodies.get? attackerIndex.toNat else none
  attacker.map fun a =>
    { s with
      bullets := s.bullets ++
        [createBody "bulletAlien" (some s.objCount) s.time BULLET_DIMS
          (a.pos.add ⟨a.dims.width / 2 - BULLET_DIMS.width / 2, a.dims.height⟩)
          ⟨0, BULLET_ALIEN_VEL⟩ Vec.zero]
      objCount := s.objCount + 1
      rng := s.rng.next }

/-- Source `reduceState`: the state transducer.  Guard order reproduces the source:
empty formation first (level advance), then `Restart`, then the frozen
game-over state, then per-event dispatch. -/
def reduceState (s : State) (e : Ev) : Option State :=
  if s.aliens.bodies.length = 0 then some (renewState s false)
  else
    match e with
    | Ev.restart => some (renewState s true)
    | Ev.move d =>
        if s.gameOver then some s
        else some { s with ship := { s.ship with vel := ⟨d, 0⟩ } }
    | Ev.shoot =>
        if s.gameOver then some s
        else
          if (s.bullets.find? fun b => b.viewType == "bulletPlayer").isNone then
            some { s with
              bullets := s.bullets ++
                [createBody "bulletPlayer" (some s.objCount) s.time BULLET_DIMS
                  (s.ship.pos.add
                    ⟨s.ship.dims.width / 2 - BULLET_DIMS.width / 2, -30⟩)
                  (Vec.rotate180 ⟨0, BULLET_PLAYER_VEL⟩) Vec.zero]
              objCount := s.objCount + 1 }
          else some s
    | Ev.alienShoot =>
        if s.gameOver then some s else alienShoot s
    | Ev.ufoSpawn =>
        if s.gameOver then some s
        else some { s with
          ufo := s.ufo ++
            [createBody "ufo" (some s.objCount) s.time UFO_DIMS
              UFO_INITIAL_POS UFO_INITIAL_VEL Vec.zero]
          objCount := s.objCount + 1 }
    | Ev.tick elapsed =>
        if s.gameOver then some s else some (tick s elapsed)

/-- Run a list of events through the reducer (crash stops the run). -/
def runEvents : State → List Ev → Option State
  | s, [] => some s
  | s, e :: es => (reduceState s e).bind fun s1 => runEvents s1 es

/-- Reachable states: the initial state for any stored high score and shooter
seed, closed under (non-crashing) reductions. -/
inductive Reachable : State → Prop where
  | init (prevHiScore : ℕ) (shooterSeed : ℚ) :
      Reachable (initialState prevHiScore shooterSeed)
  | step {s s' : State} (e : Ev) :
      Reachable s → reduceState s e = some s' → Reachable s'

/-! ## Shared facts about the reducer -/

/-- Collision resolution never modifies `shields`. -/
theorem handleCollisions_shields (s : State) :
    (handleCollisions s).shields = s.shields := rfl

/-- The tick step never modifies `shields`. -/
theorem tick_shields (s : State) (q : ℚ) : (tick s q).shields = s.shields := rfl

/-- State renewal never modifies `shields`. -/
theorem renewState_shields (s : State) (b : Bool) :
    (renewState s b).shields = s.shields := rfl

/-- Collision resolution only adds points to the score. -/
theorem handleCollisions_score_mono (s : State) :
    s.score ≤ (handleCollisions s).score := by
  simp only [handleCollisions]
  omega

/-- Collision resolution sets `hiScore` to the maximum of the previous
high score and the new score. -/
theorem handleCollisions_hiScore (s : State) :
    (handleCollisions s).hiScore = max s.hiScore (handleCollisions s).score := by
  simp only [handleCollisions]
  split <;> omega

/-- Inversion for a successful `alienShoot`: the result is the state with one
appended alien bullet, an incremented counter, and an advanced RNG. -/
theorem alienShoot_eq_some {s s' : State} (h : alienShoot s = some s') :
    ∃ a : Body,
      s' = { s with
              bullets := s.bullets ++
                [createBody "bulletAlien" (some s.objCount) s.time BULLET_DIMS
                  (a.pos.add
                    ⟨a.dims.width / 2 - BULLET_DIMS.width / 2, a.dims.height⟩)
                  ⟨0, BULLET_ALIEN_VEL⟩ Vec.zero]
              objCount := s.objCount + 1
              rng := s.rng.next } := by
  simp only [alienShoot] at h
  rcases Option.map_eq_some'.mp h with ⟨a, _, ha⟩
  exact ⟨a, ha.symm⟩

/-! ## Claim theorems -/

/-- C9: `bodiesCollided` returns `true` exactly when the two axis-aligned
rectangles (top-left `pos`, extent `width`/`height`) overlap on both axes
under closed-interval semantics, so rectangles whose edges merely touch
count as colliding. -/
def rectanglesOverlapSpec (a b : Body) : Prop :=
  (a.pos.x ≤ b.pos.x + b.dims.width ∧ b.pos.x ≤ a.pos.x + a.dims.width) ∧
  (a.pos.y ≤ b.pos.y + b.dims.height ∧ b.pos.y ≤ a.pos.y + a.dims.height)

/-- C9: the collision test is exactly closed-interval AABB overlap on both
axes; touching edges count as collision. -/
theorem C9_bodiesCollided_iff_overlap (a b : Body) :
    bodiesCollided a b = true ↔ rectanglesOverlapSpec a b := by
  simp only [bodiesCollided, rectanglesOverlapSpec, Bool.and_eq_true,
    decide_eq_true_eq, ge_iff_le]
  tauto

/-- C9 witness (touching edges): a bullet whose box exactly touches the first
shield's left edge (shared boundary coordinate 10) satisfies the overlap
specification and therefore collides. -/
theorem C9_touching_edges_witness :
    bodiesCollided
      (createBody "bulletPlayer" (some 0) 0 BULLET_DIMS ⟨4, 425⟩ Vec.zero Vec.zero)
      (createBody "shield" (some 0) 0 SHIELD_DIMS ⟨10, 425⟩ Vec.zero Vec.zero)
      = true :=
  (C9_bodiesCollided_iff_overlap
      (createBody "bulletPlayer" (some 0) 0 BULLET_DIMS ⟨4, 425⟩ Vec.zero Vec.zero)
      (createBody "shield" (some 0) 0 SHIELD_DIMS ⟨10, 425⟩ Vec.zero Vec.zero)).mpr
    ⟨⟨by decide!, by decide!⟩, by decide!, by decide!⟩

/-- C5: reducing any event against a state with an empty alien formation
performs the level advance: the result is `renewState s false`, which has a
full `ROWS*COLS` formation, the same score, and a formation acceleration
magnitude scaled by `DIFFICULTY_ALIEN_ACC_SCALE`. -/
theorem C5_level_advance (s : State) (e : Ev) (h : s.aliens.bodies = []) :
    reduceState s e = some (renewState s false) ∧
    (renewState s false).aliens.bodies.length = ALIEN_ROWS * ALIEN_COLS ∧
    (renewState s false).score = s.score ∧
    (renewState s false).aliens.accMagnitude =
      DIFFICULTY_ALIEN_ACC_SCALE * s.aliens.accMagnitude := by
  refine ⟨?_, ?_, rfl, rfl⟩
  · simp [reduceState, h]
  · simp [renewState, createAliens]

def c5state : State :=
  { initialState 0 0 with
    aliens := { (initialState 0 0).aliens with bodies := [] } }

/-- C5 witness: the level advance at a concrete empty-formation state. -/
theorem C5_level_advance_witness :
    c5state.aliens.bodies = [] ∧
    (reduceState c5state Ev.shoot = some (renewState c5state false) ∧
      (renewState c5state false).aliens.bodies.length = ALIEN_ROWS * ALIEN_COLS ∧
      (renewState c5state false).score = c5state.score ∧
      (renewState c5state false).aliens.accMagnitude =
        DIFFICULTY_ALIEN_ACC_SCALE * c5state.aliens.accMagnitude) :=
  ⟨rfl, C5_level_advance c5state Ev.shoot rfl⟩

/-- C6: while a player bullet is live (and the formation is non-empty and the
game is not over), a `Shoot` event leaves the bullet collection and the
object counter unchanged — no new bullet is created. -/
theorem C6_single_shot (s : State) (hne : s.aliens.bodies ≠ [])
    (hgo : s.gameOver = false)
    (hbul : (s.bullets.find? fun b => b.viewType == "bulletPlayer").isSome = true) :
    (reduceState s Ev.shoot).map State.bullets = some s.bullets ∧
    (reduceState s Ev.shoot).map State.objCount = some s.objCount := by
  have hlen : ¬ s.aliens.bodies.length = 0 := by
    simpa [List.length_eq_zero] using hne
  have hred : reduceState s Ev.shoot = some s := by
    cases hf : s.bullets.find? fun b => b.viewType == "bulletPlayer" with
    | none => rw [hf] at hbul; simp at hbul
    | some b => simp [reduceState, hlen, hgo, hf]
  rw [hred]
  exact ⟨rfl, rfl⟩

def c6state : State :=
  { initialState 0 0 with
    bullets := [createBody "bulletPlayer" (some 24) 0 BULLET_DIMS ⟨297, 510⟩
      ⟨0, -5⟩ Vec.zero] }

/-- C6 witness: the single-shot rule at a concrete state with a live player
bullet. -/
theorem C6_single_shot_witness :
    c6state.aliens.bodies ≠ [] ∧ c6state.gameOver = false ∧
    (c6state.bullets.find? fun b => b.viewType == "bulletPlayer").isSome = true ∧
    ((reduceState c6state Ev.shoot).map State.bullets = some c6state.bullets ∧
      (reduceState c6state Ev.shoot).map State.objCount = some c6state.objCount) :=
  ⟨by decide!, rfl, by decide!,
    C6_single_shot c6state (by decide!) rfl (by decide!)⟩

/-- C10: the shields collection is a frame invariant of the reducer: every
transition (level advance, restart, frozen game-over state, moves, shots,
alien shots, UFO spawns and full physics ticks) leaves `shields` untouched. -/
theorem C10_shields_frame (s : State) (e : Ev) (s' : State)
    (h : reduceState s e = some s') : s'.shields = s.shields := by
  cases e with
  | tick q =>
      simp only [reduceState] at h
      split at h
      · cases h; rfl
      · split at h <;> (cases h; rfl)
  | move d =>
      simp only [reduceState] at h
      split at h
      · cases h; rfl
      · split at h <;> (cases h; rfl)
  | shoot =>
      simp only [reduceState] at h
      split at h
      · cases h; rfl
      · split at h
        · cases h; rfl
        · split at h <;> (cases h; rfl)
  | alienShoot =>
      simp only [reduceState] at h
      split at h
      · cases h; rfl
      · split at h
        · cases h; rfl
        · rcases alienShoot_eq_some h with ⟨a, rfl⟩; rfl
  | restart =>
      simp only [reduceState] at h
      split at h <;> (cases h; rfl)
  | ufoSpawn =>
      simp only [reduceState] at h
      split at h
      · cases h; rfl
      · split at h <;> (cases h; rfl)

def c10result : State :=
  { initialState 0 0 with
    ship := { (initialState 0 0).ship with vel := ⟨3, 0⟩ } }

/-- C10 witness: the frame invariant at a concrete transition. -/
theorem C10_shields_frame_witness :
    reduceState (initialState 0 0) (Ev.move 3) = some c10result ∧
    c10result.shields = (initialState 0 0).shields :=
  ⟨by decide!,
    C10_shields_frame (initialState 0 0) (Ev.move 3) c10result (by decide!)⟩

def c1state : State :=
  { initialState 0 0 with
    aliens := { (initialState 0 0).aliens with bodies := [] } }

/-- C1: the formation produced by a level advance is NOT rigid: reducing a
tick against a cleared formation yields `renewState _ false`, whose alien
bodies all carry the scaled acceleration `2 * ALIEN_INITIAL_ACC` while the
formation anchor `movementPos.current` is constructed with the constant
`ALIEN_INITIAL_ACC` (`createAliens`, source line 278, hardcodes
`CONST.ALIEN.INITIAL.ACC` for the anchor), so body acceleration differs
from anchor acceleration in the very state the transition produces. -/
theorem C1_anchor_keeps_initial_acc :
    reduceState c1state (Ev.tick 1) = some (renewState c1state false) ∧
    (renewState c1state false).aliens.accMagnitude
        = DIFFICULTY_ALIEN_ACC_SCALE * ALIEN_INITIAL_ACC ∧
    ((renewState c1state false).aliens.bodies.all fun b =>
        b.acc == Vec.mk (DIFFICULTY_ALIEN_ACC_SCALE * ALIEN_INITIAL_ACC) 0) = true ∧
    (renewState c1state false).aliens.bodies.length =
        ALIEN_ROWS * ALIEN_COLS ∧
    (renewState c1state false).aliens.movementPos.current.vel
        = Vec.mk ALIEN_INITIAL_SPEED 0 ∧
    (renewState c1state false).aliens.movementPos.current.acc
        = Vec.mk ALIEN_INITIAL_ACC 0 ∧
    Vec.mk ALIEN_INITIAL_ACC 0 ≠
        Vec.mk (DIFFICULTY_ALIEN_ACC_SCALE * ALIEN_INITIAL_ACC) 0 := by decide!

/-- Whether an exit entry is an alien `Body` (the render adapter deletes
visuals for `Body` entries keyed by id/viewType). -/
def ExitEntry.isAlienBody : ExitEntry → Bool
  | ExitEntry.body b => b.viewType == "alien"
  | ExitEntry.aliens _ => false

def c2state : State :=
  { initialState 0 0 with
    bullets := [createBody "bulletPlayer" (some 24) 0 BULLET_DIMS ⟨297, 510⟩
      ⟨0, -5⟩ Vec.zero]
    holes := [createBody "hole" (some 25) 0 BULLET_HOLE_DIMS ⟨100, 430⟩
      Vec.zero Vec.zero]
    exit := [ExitEntry.body
      (createBody "bulletAlien" (some 20) 0 BULLET_DIMS ⟨50, 50⟩ ⟨0, 5⟩ Vec.zero)] }

/-- C2: `renewState` resets ship/bullets/holes/ufo and builds `exiting` from
scratch, and the live bullet and hole do land in `exiting` — but the old
alien formation's 24 bodies never do: the source passes the `AliensInfo`
record itself to `concat`, which appends it as a single non-`Body` element. -/
theorem C2_alien_bodies_missing_from_exit :
    (renewState c2state false).exit =
      ((c2state.bullets ++ c2state.holes ++ c2state.ufo).map ExitEntry.body)
        ++ [ExitEntry.aliens c2state.aliens] ∧
    c2state.aliens.bodies.length = 24 ∧
    ((renewState c2state false).exit.all fun x => !(x.isAlienBody)) = true ∧
    (renewState c2state false).bullets = [] ∧
    (renewState c2state false).holes = [] ∧
    (renewState c2state false).ufo = [] ∧
    (renewState c2state false).ship = createShip := by decide!

def c3bullet : Body :=
  createBody "bulletPlayer" (some 30) 0 BULLET_DIMS ⟨200, 300⟩ ⟨0, -5⟩ Vec.zero

def c3ufo : Body :=
  createBody "ufo" (some 31) 0 UFO_DIMS ⟨150, 290⟩ UFO_INITIAL_VEL Vec.zero

def c3state : State :=
  { initialState 0 0 with bullets := [c3bullet], ufo := [c3ufo] }

/-- C3: at a state where a player bullet overlaps the UFO, collision
resolution removes the UFO, appends both the bullet and the UFO to the exit
collection, and adds the UFO bonus to the score — but the bullet is NOT
removed from the bullet collection (the source never cuts
`expiredBulletsFromUfo` from `bullets`). -/
theorem C3_ufo_bullet_not_removed :
    bodiesCollided c3bullet c3ufo = true ∧
    (handleCollisions c3state).ufo = [] ∧
    (handleCollisions c3state).score = c3state.score + UFO_POINTS ∧
    (handleCollisions c3state).exit =
      [ExitEntry.body c3bullet, ExitEntry.body c3ufo] ∧
    (handleCollisions c3state).bullets = [c3bullet] := by decide!

/-! ## Score claims -/

/-- The tick step never decreases the score. -/
theorem tick_score_mono (s : State) (q : ℚ) : s.score ≤ (tick s q).score := by
  simp only [tick]
  refine le_trans (le_of_eq ?_) (handleCollisions_score_mono _)
  rfl

/-- After a tick, `hiScore` dominates the score. -/
theorem tick_hiScore_ge_score (s : State) (q : ℚ) :
    (tick s q).score ≤ (tick s q).hiScore := by
  simp only [tick]
  rw [handleCollisions_hiScore]
  exact le_max_right _ _

/-- After a tick, `hiScore` is the maximum of the previous high score and the
new score. -/
theorem tick_hiScore_eq_max (s : State) (q : ℚ) :
    (tick s q).hiScore = max s.hiScore (tick s q).score := by
  simp only [tick]
  rw [handleCollisions_hiScore]

/-- One (non-crashing) reduction preserves `score ≤ hiScore`. -/
theorem score_le_hiScore_step (s : State) (e : Ev) (s' : State)
    (inv : s.score ≤ s.hiScore) (h : reduceState s e = some s') :
    s'.score ≤ s'.hiScore := by
  cases e with
  | tick q =>
      simp only [reduceState] at h
      split at h
      · cases h; exact inv
      · split at h
        · cases h; exact inv
        · cases h; exact tick_hiScore_ge_score s q
  | move d =>
      simp only [reduceState] at h
      split at h
      · cases h; exact inv
      · split at h <;> (cases h; exact inv)
  | shoot =>
      simp only [reduceState] at h
      split at h
      · cases h; exact inv
      · split at h
        · cases h; exact inv
        · split at h <;> (cases h; exact inv)
  | alienShoot =>
      simp only [reduceState] at h
      split at h
      · cases h; exact inv
      · split at h
        · cases h; exact inv
        · rcases alienShoot_eq_some h with ⟨a, rfl⟩; exact inv
  | restart =>
      simp only [reduceState] at h
      split at h
      · cases h; exact inv
      · cases h; exact Nat.zero_le _
  | ufoSpawn =>
      simp only [reduceState] at h
      split at h
      · cases h; exact inv
      · split at h <;> (cases h; exact inv)

/-- On every reachable state the score never exceeds the high score. -/
theorem reachable_score_le_hiScore (s : State) (h : Reachable s) :
    s.score ≤ s.hiScore := by
  induction h with
  | init p q => exact Nat.zero_le _
  | step e hr hred ih => exact score_le_hiScore_step _ e _ ih hred

/-- C4 (amended): on reachable states, the score is non-decreasing under
every reduction by a non-`Restart` event, and after every reduction (any
event) the resulting `hiScore` equals `max` of the previous `hiScore` and
the resulting score. -/
theorem C4_score_monotone_amended (s : State) (e : Ev) (s' : State)
    (hr : Reachable s) (h : reduceState s e = some s') :
    (e ≠ Ev.restart → s.score ≤ s'.score) ∧
    s'.hiScore = max s.hiScore s'.score := by
  have inv : s.score ≤ s.hiScore := reachable_score_le_hiScore s hr
  cases e with
  | tick q =>
      simp only [reduceState] at h
      split at h
      · cases h; exact ⟨fun _ => le_refl _, (Nat.max_eq_left inv).symm⟩
      · split at h
        · cases h; exact ⟨fun _ => le_refl _, (Nat.max_eq_left inv).symm⟩
        · cases h
          refine ⟨fun _ => tick_score_mono s q, ?_⟩
          exact tick_hiScore_eq_max s q
  | move d =>
      simp only [reduceState] at h
      split at h
      · cases h; exact ⟨fun _ => le_refl _, (Nat.max_eq_left inv).symm⟩
      · split at h <;>
          (cases h; exact ⟨fun _ => le_refl _, (Nat.max_eq_left inv).symm⟩)
  | shoot =>
      simp only [reduceState] at h
      split at h
      · cases h; exact ⟨fun _ => le_refl _, (Nat.max_eq_left inv).symm⟩
      · split at h
        · cases h; exact ⟨fun _ => le_refl _, (Nat.max_eq_left inv).symm⟩
        · split at h <;>
            (cases h; exact ⟨fun _ => le_refl _, (Nat.max_eq_left inv).symm⟩)
  | alienShoot =>
      simp only [reduceState] at h
      split at h
      · cases h; exact ⟨fun _ => le_refl _, (Nat.max_eq_left inv).symm⟩
      · split at h
        · cases h; exact ⟨fun _ => le_refl _, (Nat.max_eq_left inv).symm⟩
        · rcases alienShoot_eq_some h with ⟨a, rfl⟩
          exact ⟨fun _ => le_refl _, (Nat.max_eq_left inv).symm⟩
  | restart =>
      simp only [reduceState] at h
      split at h
      · cases h; exact ⟨fun _ => le_refl _, (Nat.max_eq_left inv).symm⟩
      · cases h
        exact ⟨fun hne => absurd rfl hne,
          (Nat.max_eq_left (Nat.zero_le _)).symm⟩
  | ufoSpawn =>
      simp only [reduceState] at h
      split at h
      · cases h; exact ⟨fun _ => le_refl _, (Nat.max_eq_left inv).symm⟩
      · split at h <;>
          (cases h; exact ⟨fun _ => le_refl _, (Nat.max_eq_left inv).symm⟩)

def c4result : State :=
  { initialState 0 0 with
    ship := { (initialState 0 0).ship with vel := ⟨3, 0⟩ } }

/-- C4 witness: the amended score laws at a concrete reachable transition. -/
theorem C4_score_monotone_amended_witness :
    Reachable (initialState 0 0) ∧
    reduceState (initialState 0 0) (Ev.move 3) = some c4result ∧
    ((Ev.move 3 ≠ Ev.restart → (initialState 0 0).score ≤ c4result.score) ∧
      c4result.hiScore = max (initialState 0 0).hiScore c4result.score) :=
  ⟨Reachable.init 0 0, by decide!,
    C4_score_monotone_amended (initialState 0 0) (Ev.move 3) c4result
      (Reachable.init 0 0) (by decide!)⟩

/-- The endpoint of an event run from a reachable state is reachable. -/
theorem runEvents_reachable (es : List Ev) (s s' : State) (hr : Reachable s)
    (h : runEvents s es = some s') : Reachable s' := by
  induction es generalizing s with
  | nil => cases h; exact hr
  | cons e es ih =>
      simp only [runEvents] at h
      cases hstep : reduceState s e with
      | none => rw [hstep] at h; exact Option.noConfusion h
      | some s1 =>
          rw [hstep] at h
          exact ih s1 (Reachable.step e hr hstep) h

/-- An event script that reaches a positive score from the initial state:
move right for 15 ticks into the gap between shields 2 and 3, stop, shoot,
and let the bullet fly for 67 ticks until it kills one alien (+10 points). -/
def c4script : List Ev :=
  Ev.move 3 :: (List.replicate 15 (Ev.tick 1) ++
    (Ev.move 0 :: Ev.shoot :: List.replicate 67 (Ev.tick 1)))

set_option maxRecDepth 100000 in
set_option maxHeartbeats 1000000 in
/-- C4 counterexample: score is NOT non-decreasing over reachable states for
every event — a `Restart` resets a reachable positive score to 0. -/
theorem C4_restart_resets_score :
    ¬ (∀ (s : State) (e : Ev) (s' : State),
        Reachable s → reduceState s e = some s' → s.score ≤ s'.score) := by
  intro hall
  have hrun : (runEvents (initialState 0 0) c4script).map
      (fun s => (s.score, s.aliens.bodies.length)) = some (10, 23) := by decide!
  obtain ⟨sW, hsW, hpair⟩ := Option.map_eq_some'.mp hrun
  have hscore : sW.score = 10 := by
    have h1 := congrArg Prod.fst hpair
    simpa using h1
  have hlen : sW.aliens.bodies.length = 23 := by
    have h2 := congrArg Prod.snd hpair
    simpa using h2
  have hreach : Reachable sW :=
    runEvents_reachable c4script (initialState 0 0) sW (Reachable.init 0 0) hsW
  have hne : ¬ sW.aliens.bodies.length = 0 := by omega
  have hred : reduceState sW Ev.restart = some (renewState sW true) := by
    simp only [reduceState]
    rw [if_neg hne]
  have hle := hall sW Ev.restart (renewState sW true) hreach hred
  have hzero : (renewState sW true).score = 0 := rfl
  rw [hzero] at hle
  omega

end SpaceInvaders
